import Mathlib

/-!
Verification of the WANPTEK power-supply controller and its SCPI web
application (files wanptek_controller.py and wanptek_webapp.py).

Byte strings are modelled as lists of naturals (each element a byte value,
i.e. below 256, where that matters); text is modelled as the list of
Unicode code points of its characters.  Python floats are modelled as exact
rationals.  Stateful methods are modelled as pure functions over explicit
state: the serial link is a function from the transmitted frame to the
response (or a typed failure), and the device's settings registers are an
explicit record.
-/

/-- Code points of a string literal, used to write concrete byte/text
inputs compactly. -/
def codes (s : String) : List Nat := s.toList.map Char.toNat

/-! ## wanptek_controller.py : frame codec -/

/-- One shift step of the CRC inner loop (wanptek_controller.py lines
239-243): if the low bit is set, shift right and XOR with 0xA001,
otherwise just shift right. -/
def crcRound (c : Nat) : Nat :=
  if c &&& 1 = 1 then (c >>> 1) ^^^ 0xA001 else c >>> 1

/-- WanptekPowerSupply._calculate_crc (lines 234-244): accumulator starts
at 0xFFFF; each input byte is XORed in and then eight `crcRound` steps are
applied. -/
def calculate_crc (data : List Nat) : Nat :=
  data.foldl (fun crc byte => crcRound^[8] (crc ^^^ byte)) 0xFFFF

/-- Reference CRC-16 single-bit step, written from the claim's wording:
the accumulator is shifted right one bit (division by two) and XORed with
0xA001 exactly when the shifted-out bit (the remainder mod two) was 1. -/
def refCrcStep (c : Nat) : Nat :=
  if c % 2 = 1 then (c / 2) ^^^ 0xA001 else c / 2

/-- Reference CRC-16, written from the claim's wording: initialize to
0xFFFF; for each input byte XOR it into the accumulator, then perform 8
single-bit steps. -/
def refCrc (data : List Nat) : Nat :=
  data.foldl (fun crc byte => refCrcStep^[8] (crc ^^^ byte)) 0xFFFF

/-- WanptekPowerSupply._pack_word (lines 246-251): struct.pack with
format '<H' or '>H' according to the session's endianness flag.  The
Python call raises for values outside 0..65535; the model totalizes with
reductions mod 256 that are the identity on that range. -/
def pack_word (little_endian : Bool) (value : Nat) : List Nat :=
  if little_endian then [value % 256, value / 256 % 256]
  else [value / 256 % 256, value % 256]

/-- WanptekPowerSupply._unpack_word (lines 253-258): struct.unpack with
format '<H' or '>H' according to the session's endianness flag, applied to
a two-byte string. -/
def unpack_word (little_endian : Bool) (data : List Nat) : Nat :=
  if little_endian then data.getD 0 0 + 256 * data.getD 1 0
  else 256 * data.getD 0 0 + data.getD 1 0

/-- The two checksum bytes appended by _send_command (line 267):
struct.pack('<H', crc), a fixed little-endian byte order that does not
consult the session's endianness flag. -/
def pack_crc_le (v : Nat) : List Nat := [v % 256, v / 256 % 256]

/-- The frame transmitted by WanptekPowerSupply._send_command (lines
260-274): the command body followed by the CRC of the body.  The
session's endianness flag is a parameter (it is a field of self) but the
checksum bytes are packed with the fixed '<H' format. -/
def send_frame (little_endian : Bool) (command : List Nat) : List Nat :=
  command ++ pack_crc_le (calculate_crc command)

/-! ## wanptek_controller.py : transport receive path -/

/-- Failure cases raised by the controller, one constructor per distinct
raise site modelled here (the Python code raises Exception/ValueError with
distinguishing messages). -/
inductive PyErr where
  /-- Exception raised at line 287: fewer than 3 response bytes arrived
  within the timeout. -/
  | timeout
  /-- Exception raised at line 295: the trailing two response bytes do not
  match the CRC of the rest. -/
  | crcFail
  /-- Exception raised at line 305: status response shorter than 21
  bytes. -/
  | shortResp
  /-- Exception raised at line 263: device not connected. -/
  | notConnected
  /-- ValueError raised by set_output range validation (lines 396-401). -/
  | valueError
deriving DecidableEq

/-- Little-endian unpacking of the two trailing response bytes
(struct.unpack('<H', response[-2:]) at line 291). -/
def unpack_le2 (d : List Nat) : Nat := d.getD 0 0 + 256 * d.getD 1 0

/-- Receive-side validation of _send_command (lines 276-297), as a
function of the bytes that arrived within the timeout window: fewer than
3 bytes is a timeout failure; otherwise the trailing two bytes must equal
the CRC computed over the rest, else a checksum failure; otherwise the
raw response is returned. -/
def recv_validate (response : List Nat) : Except PyErr (List Nat) :=
  if response.length < 3 then .error .timeout
  else
    let data_part := response.take (response.length - 2)
    let received_crc := unpack_le2 (response.drop (response.length - 2))
    if received_crc ≠ calculate_crc data_part then .error .crcFail
    else .ok response

/-- WanptekPowerSupply._read_raw_status (lines 299-307) applied to the
bytes that arrived for the status request: after _send_command's
validation, a response shorter than 21 bytes fails. -/
def read_raw_status (response : List Nat) : Except PyErr (List Nat) :=
  match recv_validate response with
  | .error e => .error e
  | .ok r => if r.length < 21 then .error .shortResp else .ok r

/-- A concrete 19-byte status body (all zeroes). -/
def sampleStatusBody : List Nat := List.replicate 19 0

/-- A concrete well-formed 21-byte status response: the sample body
followed by its CRC in little-endian order. -/
def sampleStatusResp : List Nat :=
  sampleStatusBody ++ pack_crc_le (calculate_crc sampleStatusBody)

/-! ## wanptek_controller.py : device session (set_output) -/

/-- The device-profile fields of WanptekPowerSupply consulted by
set_output (decimal places, maxima, address); engineering values are
modelled as exact rationals. -/
structure Profile where
  voltage_decimal_places : Nat
  current_decimal_places : Nat
  max_voltage : ℚ
  max_current : ℚ
  slave_addr : Nat
deriving DecidableEq

/-- The fields of the read_status dictionary (lines 309-367) consumed by
set_output when filling omitted arguments. -/
structure Snapshot where
  power_on : Bool
  ocp_enabled : Bool
  keyboard_locked : Bool
  set_voltage : ℚ
  set_current : ℚ
deriving DecidableEq

/-- The device's settings registers: raw 16-bit words for the set values
plus the three control flags.  This is the state a successful write frame
latches into the device. -/
structure DeviceRegs where
  vset_raw : Nat
  cset_raw : Nat
  power : Bool
  ocp : Bool
  lock : Bool
deriving DecidableEq

/-- The snapshot read_status produces from the device registers (lines
329-350): raw words divided by 10 to the profile's decimal places, flag
bits copied.  The division is idealized as exact rational arithmetic; the
source divides IEEE-754 doubles, which float_refill_raw below models
faithfully for the read-back/refill composition. -/
def snapshotOf (p : Profile) (d : DeviceRegs) : Snapshot :=
  { power_on := d.power
    ocp_enabled := d.ocp
    keyboard_locked := d.lock
    set_voltage := (d.vset_raw : ℚ) / 10 ^ p.voltage_decimal_places
    set_current := (d.cset_raw : ℚ) / 10 ^ p.current_decimal_places }

/-- Python int() truncation toward zero on an exact rational. -/
def pyInt (q : ℚ) : Int :=
  q.num.sign * ((q.num.natAbs / q.den : Nat) : Int)

/-- The effective targets of set_output (lines 389-393): each omitted
argument falls back to the corresponding field of the fresh snapshot. -/
structure Targets where
  tv : ℚ
  tc : ℚ
  tpower : Bool
  tocp : Bool
  tlock : Bool

/-- Fill the five targets from the provided arguments and the snapshot
(lines 389-393). -/
def fill_targets (st : Snapshot) (voltage current : Option ℚ)
    (power_on ocp_enable keyboard_lock : Option Bool) : Targets :=
  { tv := voltage.getD st.set_voltage
    tc := current.getD st.set_current
    tpower := power_on.getD st.power_on
    tocp := ocp_enable.getD st.ocp_enabled
    tlock := keyboard_lock.getD st.keyboard_locked }

/-- Range validation of set_output (lines 396-401): voltage above
maximum, then current above maximum, then either target negative; the
first failing check raises ValueError. -/
def validate_targets (p : Profile) (t : Targets) : Option PyErr :=
  if t.tv > p.max_voltage then some .valueError
  else if t.tc > p.max_current then some .valueError
  else if t.tv < 0 ∨ t.tc < 0 then some .valueError
  else none

/-- Conversion of an engineering value to a raw register word (lines
404-408): multiply by 10 to the decimal places and truncate with int().
The multiplication is idealized as exact rational arithmetic; the source
multiplies IEEE-754 doubles, which float_refill_raw below models
faithfully for the read-back/refill composition. -/
def raw_of (decimal_places : Nat) (x : ℚ) : Nat :=
  (pyInt (x * 10 ^ decimal_places)).toNat

/-- The control byte built at lines 411-417: bit 0 power, bit 1 OCP,
bit 2 keyboard lock. -/
def control_byte (tpower tocp tlock : Bool) : Nat :=
  (if tpower then 1 else 0) ||| (if tocp then 2 else 0) |||
    (if tlock then 4 else 0)

/-- The write command body built at lines 419-427:
struct.pack('BBHHB', addr, 0x10, 0x0000, 0x0003, 0x06) on a little-endian
host, then control byte, reserved byte, and the two register words packed
with the session's endianness. -/
def write_frame (p : Profile) (little_endian : Bool)
    (control vraw craw : Nat) : List Nat :=
  [p.slave_addr, 0x10, 0x00, 0x00, 0x03, 0x00, 0x06, control, 0x00] ++
    pack_word little_endian vraw ++ pack_word little_endian craw

/-- WanptekPowerSupply.set_output (lines 369-434) as a function of the
outcome of the initial read_status call and of the serial link's behaviour
on the write exchange.  The first component is the call's result (ok with
the returned bool, or the propagated exception); the second component is
the list of write frames handed to the link.  The try block at lines
429-434 covers only the write exchange: its failures are caught and turn
into a False return; read failures and ValueError propagate. -/
def set_output_link (p : Profile) (little_endian : Bool)
    (readResult : Except PyErr Snapshot)
    (link : List Nat → Except PyErr (List Nat))
    (voltage current : Option ℚ) (power_on ocp_enable keyboard_lock : Option Bool) :
    Except PyErr Bool × List (List Nat) :=
  match readResult with
  | .error e => (.error e, [])
  | .ok st =>
    let t := fill_targets st voltage current power_on ocp_enable keyboard_lock
    match validate_targets p t with
    | some e => (.error e, [])
    | none =>
      let frame := write_frame p little_endian
        (control_byte t.tpower t.tocp t.tlock)
        (raw_of p.voltage_decimal_places t.tv)
        (raw_of p.current_decimal_places t.tc)
      match link frame with
      | .ok response => (.ok (decide (8 ≤ response.length)), [frame])
      | .error _ => (.ok false, [frame])

/-- One successful set_output exchange against the device registers: the
fresh snapshot is taken from the registers, omitted arguments are filled
from it, ranges are validated, and on success the device latches the
written control flags and raw register words (lines 385-427 composed with
the device applying the write). -/
def set_output_dev (p : Profile) (d : DeviceRegs)
    (voltage current : Option ℚ) (power_on ocp_enable keyboard_lock : Option Bool) :
    Except PyErr DeviceRegs :=
  let st := snapshotOf p d
  let t := fill_targets st voltage current power_on ocp_enable keyboard_lock
  match validate_targets p t with
  | some e => .error e
  | none =>
    .ok { vset_raw := raw_of p.voltage_decimal_places t.tv
          cset_raw := raw_of p.current_decimal_places t.tc
          power := t.tpower
          ocp := t.tocp
          lock := t.tlock }

/-! ## wanptek_webapp.py : SCPI command processor -/

/-- Python str.upper() on one ASCII code point. -/
def pyUpperChar (c : Nat) : Nat := if 97 ≤ c ∧ c ≤ 122 then c - 32 else c

/-- Python str.upper() on a text, as a list of code points. -/
def pyUpperStr (s : List Nat) : List Nat := s.map pyUpperChar

/-- Python str.strip() whitespace test (space, tab, newline, carriage
return, vertical tab, form feed). -/
def isPySpace (c : Nat) : Bool :=
  c == 32 || c == 9 || c == 10 || c == 13 || c == 11 || c == 12

/-- Python str.strip(): remove leading and trailing whitespace. -/
def pyStrip (s : List Nat) : List Nat :=
  ((s.dropWhile isPySpace).reverse.dropWhile isPySpace).reverse

/-- Worker for Python str.replace: scan left to right, replacing each
non-overlapping occurrence of the pattern.  The second argument counts
characters still to be skipped because they belong to the occurrence
just replaced (the occurrence's head was already consumed at the match
position), keeping the recursion structural in the scanned text. -/
def replaceScan (pat rep : List Nat) : List Nat → Nat → List Nat
  | [], _ => []
  | _ :: t, skip + 1 => replaceScan pat rep t skip
  | c :: t, 0 =>
    if pat.isPrefixOf (c :: t) then
      rep ++ replaceScan pat rep t (pat.length - 1)
    else
      c :: replaceScan pat rep t 0

/-- Python s.replace(pat, rep).  Every pattern used in the source is
nonempty; the empty-pattern branch is never exercised. -/
def pyReplace (s pat rep : List Nat) : List Nat :=
  if pat.isEmpty then s else replaceScan pat rep s 0

/-- The abbreviation table of SCPICommandProcessor._normalize_command
(wanptek_webapp.py lines 143-159), in source order.  Note the replacement
texts are mixed case exactly as in the source. -/
def abbreviations : List (List Nat × List Nat) :=
  [(codes "SOUR", codes "SOURce"), (codes "VOLT", codes "VOLTage"),
   (codes "CURR", codes "CURRent"), (codes "MEAS", codes "MEASure"),
   (codes "OUTP", codes "OUTPut"), (codes "STAT", codes "STATe"),
   (codes "PROT", codes "PROTection"), (codes "SYST", codes "SYSTem"),
   (codes "QUES", codes "QUEStionable"), (codes "OPER", codes "OPERation"),
   (codes "COND", codes "CONDition"), (codes "IMME", codes "IMMediate"),
   (codes "AMPL", codes "AMPLitude"), (codes "LEVE", codes "LEVel"),
   (codes "TRIP", codes "TRIPped")]

/-- SCPICommandProcessor._normalize_command (lines 137-164): upper-case,
then apply each whole-string substring replacement of the abbreviation
table in order. -/
def normalize_command (command : List Nat) : List Nat :=
  abbreviations.foldl (fun acc x => pyReplace acc x.1 x.2) (pyUpperStr command)

/-- SCPICommandProcessor._match_command (lines 166-169): exact equality
of the input name against the upper-cased table key. -/
def match_command (input_cmd pattern_cmd : List Nat) : Bool :=
  input_cmd == pyUpperStr pattern_cmd

/-- Abstract replies of the SCPI handler methods of
SCPICommandProcessor (lines 171-340).  Each handler is a function from
the optional argument text to the reply text; the dispatch logic under
verification never inspects these. -/
structure ScpiHandlers where
  get_identification : Option (List Nat) → List Nat
  reset_device : Option (List Nat) → List Nat
  self_test : Option (List Nat) → List Nat
  get_error : Option (List Nat) → List Nat
  get_version : Option (List Nat) → List Nat
  set_voltage : Option (List Nat) → List Nat
  get_voltage_setting : Option (List Nat) → List Nat
  set_current : Option (List Nat) → List Nat
  get_current_setting : Option (List Nat) → List Nat
  measure_voltage : Option (List Nat) → List Nat
  measure_current : Option (List Nat) → List Nat
  measure_power : Option (List Nat) → List Nat
  measure_all : Option (List Nat) → List Nat
  set_output_state : Option (List Nat) → List Nat
  get_output_state : Option (List Nat) → List Nat
  set_ocp_state : Option (List Nat) → List Nat
  get_ocp_state : Option (List Nat) → List Nat
  get_current_protection_tripped : Option (List Nat) → List Nat
  get_questionable_condition : Option (List Nat) → List Nat
  get_operation_condition : Option (List Nat) → List Nat

/-- The command table self.commands (lines 41-83), in source order, with
the keys written exactly as in the source (mixed case). -/
def scpi_commands (h : ScpiHandlers) :
    List (List Nat × (Option (List Nat) → List Nat)) :=
  [(codes "*IDN?", h.get_identification),
   (codes "*RST", h.reset_device),
   (codes "*TST?", h.self_test),
   (codes "SYSTem:ERRor?", h.get_error),
   (codes "SYSTem:VERSion?", h.get_version),
   (codes "SOURce:VOLTage", h.set_voltage),
   (codes "SOURce:VOLTage?", h.get_voltage_setting),
   (codes "SOURce:VOLTage:LEVel:IMMediate:AMPLitude", h.set_voltage),
   (codes "VOLTage", h.set_voltage),
   (codes "VOLTage?", h.get_voltage_setting),
   (codes "SOURce:CURRent", h.set_current),
   (codes "SOURce:CURRent?", h.get_current_setting),
   (codes "SOURce:CURRent:LEVel:IMMediate:AMPLitude", h.set_current),
   (codes "CURRent", h.set_current),
   (codes "CURRent?", h.get_current_setting),
   (codes "MEASure:VOLTage?", h.measure_voltage),
   (codes "MEASure:CURRent?", h.measure_current),
   (codes "MEASure:POWer?", h.measure_power),
   (codes "MEASure:ALL?", h.measure_all),
   (codes "OUTPut", h.set_output_state),
   (codes "OUTPut?", h.get_output_state),
   (codes "OUTPut:STATe", h.set_output_state),
   (codes "OUTPut:STATe?", h.get_output_state),
   (codes "SOURce:CURRent:PROTection:STATe", h.set_ocp_state),
   (codes "SOURce:CURRent:PROTection:STATe?", h.get_ocp_state),
   (codes "SOURce:CURRent:PROTection:TRIPped?", h.get_current_protection_tripped),
   (codes "STATus:QUEStionable:CONDition?", h.get_questionable_condition),
   (codes "STATus:OPERation:CONDition?", h.get_operation_condition)]

/-- SCPICommandProcessor._process_single_command (lines 107-135):
normalize, split on the first space into name and optional parameter,
then linear search of the command table with _match_command; no match
yields the unknown-command error text. -/
def process_single_command (h : ScpiHandlers) (command : List Nat) :
    List Nat :=
  let normalized := normalize_command command
  let cmd_name :=
    if normalized.contains 32 then normalized.takeWhile (fun c => c != 32)
    else normalized
  let param : Option (List Nat) :=
    if normalized.contains 32 then
      some ((normalized.dropWhile (fun c => c != 32)).drop 1)
    else none
  match (scpi_commands h).find? (fun e => match_command cmd_name e.1) with
  | some e => e.2 param
  | none => codes "ERROR: Unknown command"

/-- Python "a;b;c".split(sep) on a single code point. -/
def splitOnByte (b : Nat) : List Nat → List (List Nat)
  | [] => [[]]
  | c :: t =>
    match splitOnByte b t with
    | [] => [[]]
    | x :: xs => if c == b then [] :: x :: xs else (c :: x) :: xs

/-- SCPICommandProcessor.process_command (lines 85-105): strip the line,
return empty on an empty line, split on semicolons, process each
non-empty stripped sub-command, and join the replies with newlines. -/
def process_command (h : ScpiHandlers) (command_line : List Nat) :
    List Nat :=
  let line := pyStrip command_line
  if line.isEmpty then []
  else
    let cmds := splitOnByte 59 line
    let responses := cmds.filterMap (fun c =>
      let c2 := pyStrip c
      if c2.isEmpty then none else some (process_single_command h c2))
    List.intercalate [10] responses

/-! ## wanptek_webapp.py : SCPI connection server -/

/-- The greeting sent on connect (line 391). -/
def greetingMsg : List Nat := codes "WANPTEK SCPI Server Ready\n"

/-- The farewell sent on a QUIT/EXIT line (line 408). -/
def goodbyeMsg : List Nat := codes "Goodbye\n"

/-- The inner buffered-line loop of SCPIServer._handle_client (lines
403-419): while the buffer holds a newline, split off the first line,
strip it; a case-insensitive QUIT or EXIT sends the farewell and breaks
out of this inner loop only (the remaining buffer is kept); otherwise a
non-empty line is handed to the command processor and a non-empty reply
is written back followed by a newline.  Returns the remaining buffer and
the list of messages sent.  The fuel (at least the buffer length) makes
the recursion structural. -/
def drain_lines (proc : List Nat → List Nat) :
    Nat → List Nat → List Nat × List (List Nat)
  | 0, buffer => (buffer, [])
  | fuel + 1, buffer =>
    if buffer.contains 10 then
      let line := buffer.takeWhile (fun c => c != 10)
      let rest := (buffer.dropWhile (fun c => c != 10)).drop 1
      let l := pyStrip line
      if pyUpperStr l == codes "QUIT" || pyUpperStr l == codes "EXIT" then
        (rest, [goodbyeMsg])
      else
        let sends :=
          if l.isEmpty then ([] : List (List Nat))
          else
            let r := proc l
            if r.isEmpty then [] else [r ++ [10]]
        let step := drain_lines proc fuel rest
        (step.1, sends ++ step.2)
    else (buffer, [])

/-- The outer receive loop of SCPIServer._handle_client (lines 393-425)
while the server is running: receive a chunk (an empty chunk, meaning the
peer disconnected, ends the loop), append it to the buffer, and drain the
buffered complete lines.  Returns the list of messages sent after the
greeting. -/
def serve_client (proc : List Nat → List Nat) :
    List (List Nat) → List Nat → List (List Nat)
  | [], _ => []
  | data :: more, buffer =>
    if data.isEmpty then []
    else
      let b := buffer ++ data
      let step := drain_lines proc b.length b
      step.2 ++ serve_client proc more step.1

/-- SCPIServer._handle_client (lines 388-434) as a function of the
sequence of received chunks: the greeting followed by everything the
session loop sends. -/
def handle_client (proc : List Nat → List Nat) (chunks : List (List Nat)) :
    List (List Nat) :=
  greetingMsg :: serve_client proc chunks []

/-- Substring occurrence test used to state when the abbreviation
replacements cannot fire. -/
def occursIn (pat : List Nat) : List Nat → Bool
  | [] => pat.isPrefixOf []
  | c :: t => pat.isPrefixOf (c :: t) || occursIn pat t

/-! ## Concrete sample values used by witnesses -/

/-- A sample device profile: two decimal places for both quantities,
maxima 31 V and 6 A, address 0. -/
def sampleProfile : Profile :=
  { voltage_decimal_places := 2, current_decimal_places := 2,
    max_voltage := 31, max_current := 6, slave_addr := 0 }

/-- A sample status snapshot with everything at zero/off. -/
def sampleSnapshot : Snapshot :=
  { power_on := false, ocp_enabled := false, keyboard_locked := false,
    set_voltage := 0, set_current := 0 }

/-- Sample device registers with everything at zero/off. -/
def initialRegs : DeviceRegs :=
  { vset_raw := 0, cset_raw := 0, power := false, ocp := false, lock := false }

/-- Sample device registers as left by set_current(1.0) on a profile with
two current decimal places: raw set-current word 100. -/
def sampleRegs : DeviceRegs :=
  { vset_raw := 0, cset_raw := 100, power := false, ocp := false, lock := false }

/-! ## IEEE-754 binary64 model of the read-back/refill pipeline

The source computes read_status's raw/divisor (line 347-350) and
set_output's int(target * divisor) (lines 404-408) in Python floats,
i.e. IEEE-754 binary64: 53-bit significands with round-to-nearest,
ties-to-even after each operation.  The following model represents a
nonnegative double as a significand/exponent pair (m, e) with value
m * 2^e, and implements the two correctly-rounded operations and the
final int() truncation in exact natural-number arithmetic.  Overflow and
subnormals are irrelevant at the magnitudes involved (raw register words
and divisors 10 or 100). -/

/-- Round the nonnegative rational a/b to the nearest integer, ties to
even. -/
def rne (a b : Nat) : Nat :=
  let q := a / b
  let r := a % b
  if 2 * r < b then q
  else if b < 2 * r then q + 1
  else if q % 2 = 0 then q else q + 1

/-- Floor of the base-two logarithm, fuel-based so it evaluates by
structural recursion (the fuel n always suffices). -/
def log2fuel : Nat → Nat → Nat
  | 0, _ => 0
  | fuel + 1, n => if 2 ≤ n then log2fuel fuel (n / 2) + 1 else 0

/-- Floor of the base-two logarithm of a positive natural. -/
def nlog2 (n : Nat) : Nat := log2fuel n n

/-- Decide b * 2^e ≤ a for an integer exponent e. -/
def pow2le (b a : Nat) (e : Int) : Bool :=
  if 0 ≤ e then b * 2 ^ e.toNat ≤ a else b ≤ a * 2 ^ (-e).toNat

/-- Floor of the base-two logarithm of the positive rational a/b: the
unique e with 2^e ≤ a/b < 2^(e+1), located near nlog2 a - nlog2 b. -/
def floorLog2 (a b : Nat) : Int :=
  let c : Int := (nlog2 a : Int) - (nlog2 b : Int)
  if pow2le b a (c + 1) then c + 1
  else if pow2le b a c then c
  else c - 1

/-- Correctly rounded binary64 division a/b of two exactly representable
naturals (both operands here are at most 2^16, far below 2^53): the
quotient is scaled so the significand lands in [2^52, 2^53) and rounded
to nearest, ties to even; a carry out of the rounding renormalizes. -/
def flDivFrac (a b : Nat) : Nat × Int :=
  if a = 0 then (0, 0) else
  let e := floorLog2 a b
  let shift : Int := 52 - e
  let m := if 0 ≤ shift then rne (a * 2 ^ shift.toNat) b
           else rne a (b * 2 ^ (-shift).toNat)
  if m = 2 ^ 53 then (2 ^ 52, e + 1 - 52) else (m, e - 52)

/-- Correctly rounded binary64 multiplication of a double (m, e) by an
exactly representable natural k: the exact product either already fits in
53 bits or is rounded to nearest, ties to even, with renormalization on
carry. -/
def flMulNat (me : Nat × Int) (k : Nat) : Nat × Int :=
  let p := me.1 * k
  if p = 0 then (0, 0) else
  let s := nlog2 p
  if s ≤ 52 then (p, me.2)
  else
    let sh := s - 52
    let m2 := rne p (2 ^ sh)
    if m2 = 2 ^ 53 then (2 ^ 52, me.2 + sh + 1) else (m2, me.2 + sh)

/-- Python int() truncation toward zero of a nonnegative double. -/
def flTruncNat (me : Nat × Int) : Nat :=
  if 0 ≤ me.2 then me.1 * 2 ^ me.2.toNat else me.1 / 2 ^ (-me.2).toNat

/-- The source's float pipeline for a set_output argument that is filled
from the snapshot: read_status computes raw / divisor as a double
(line 350), set_output multiplies the result by the divisor and truncates
with int() (lines 404-408); divisor = 10^decimals is exactly
representable. -/
def float_refill_raw (raw divisor : Nat) : Nat :=
  flTruncNat (flMulNat (flDivFrac raw divisor) divisor)

/-! ## Theorems -/

theorem crcRound_eq_refCrcStep : crcRound = refCrcStep := by
  funext c
  simp [crcRound, refCrcStep, Nat.and_one_is_mod, Nat.shiftRight_one]

theorem crcRound_lt (c : Nat) (h : c < 65536) : crcRound c < 65536 := by
  have hs : c >>> 1 < 65536 := by
    simpa [Nat.shiftRight_one] using Nat.lt_of_le_of_lt (Nat.div_le_self c 2) h
  unfold crcRound
  split
  · exact Nat.xor_lt_two_pow (n := 16) hs (by norm_num)
  · exact hs

theorem crcRound_iter_lt (n : Nat) (c : Nat) (h : c < 65536) :
    crcRound^[n] c < 65536 := by
  induction n generalizing c with
  | zero => simpa using h
  | succ m ih =>
    rw [Function.iterate_succ_apply]
    exact ih _ (crcRound_lt c h)

theorem calculate_crc_lt (data : List Nat) (hb : ∀ b ∈ data, b < 256) :
    calculate_crc data < 65536 := by
  unfold calculate_crc
  have main : ∀ (l : List Nat) (acc : Nat), (∀ b ∈ l, b < 256) → acc < 65536 →
      l.foldl (fun crc byte => crcRound^[8] (crc ^^^ byte)) acc < 65536 := by
    intro l
    induction l with
    | nil => intro acc _ hacc; simpa using hacc
    | cons x xs ih =>
      intro acc hl hacc
      simp only [List.foldl_cons]
      apply ih
      · intro b hbmem; exact hl b (List.mem_cons_of_mem _ hbmem)
      · apply crcRound_iter_lt
        have hx : x < 65536 :=
          Nat.lt_of_lt_of_le (hl x (List.mem_cons_self x xs)) (by norm_num)
        exact Nat.xor_lt_two_pow (n := 16) hacc hx
  exact main data 0xFFFF hb (by norm_num)

/-- C5: _calculate_crc agrees with the reference bit-at-a-time CRC-16
(initial value 0xFFFF, reflected polynomial 0xA001, eight single-bit steps
per byte), is deterministic, and returns a 16-bit value on byte input. -/
theorem C5_crc_matches_reference (data : List Nat) :
    calculate_crc data = refCrc data ∧
    (∀ data2, data2 = data → calculate_crc data2 = calculate_crc data) ∧
    ((∀ b ∈ data, b < 256) → calculate_crc data < 65536) := by
  refine ⟨?_, ?_, calculate_crc_lt data⟩
  · unfold calculate_crc refCrc
    rw [crcRound_eq_refCrcStep]
  · intro data2 h; rw [h]

theorem C5_crc_witness :
    ((∀ b ∈ [1, 2, 3], b < 256) ∧ calculate_crc [1, 2, 3] < 65536) ∧
    calculate_crc [1, 2, 3] = refCrc [1, 2, 3] :=
  ⟨⟨by decide, ((C5_crc_matches_reference [1, 2, 3]).2.2 (by decide))⟩,
    (C5_crc_matches_reference [1, 2, 3]).1⟩

/-- C4: for every 16-bit value and both endianness settings, unpacking
the two bytes produced by packing the value with the same endianness
returns the value. -/
theorem C4_pack_unpack_roundtrip (little_endian : Bool) (v : Nat)
    (h : v < 65536) :
    unpack_word little_endian (pack_word little_endian v) = v := by
  cases little_endian <;> simp [pack_word, unpack_word] <;> omega

theorem C4_pack_unpack_witness :
    43981 < 65536 ∧
    unpack_word true (pack_word true 43981) = 43981 ∧
    unpack_word false (pack_word false 43981) = 43981 :=
  ⟨by decide, C4_pack_unpack_roundtrip true 43981 (by decide),
    C4_pack_unpack_roundtrip false 43981 (by decide)⟩

/-- C6: for every request body (address, function, payload) and both
endianness settings of the session, the transmitted frame is the body
followed by the body's checksum packed in little-endian byte order, and
the frame does not depend on the session's endianness flag. -/
theorem C6_frame_checksum_le (little_endian : Bool) (addr fn : Nat)
    (payload : List Nat) :
    send_frame little_endian (addr :: fn :: payload) =
      (addr :: fn :: payload) ++
        [calculate_crc (addr :: fn :: payload) % 256,
          calculate_crc (addr :: fn :: payload) / 256 % 256] ∧
    send_frame little_endian (addr :: fn :: payload) =
      send_frame (!little_endian) (addr :: fn :: payload) := by
  constructor
  · rfl
  · cases little_endian <;> rfl

/-- C9: the transport fails with a timeout exactly when fewer than 3
response bytes arrived, fails with a checksum error exactly when at least
3 bytes arrived but the trailing two do not equal the checksum of the
rest, a status read fails as malformed when the validated response is
shorter than 21 bytes, and otherwise the raw response is returned. -/
theorem C9_transport_failures (response : List Nat) :
    (recv_validate response = .error .timeout ↔ response.length < 3) ∧
    (recv_validate response = .error .crcFail ↔
      (3 ≤ response.length ∧
        unpack_le2 (response.drop (response.length - 2)) ≠
          calculate_crc (response.take (response.length - 2)))) ∧
    (3 ≤ response.length →
      unpack_le2 (response.drop (response.length - 2)) =
        calculate_crc (response.take (response.length - 2)) →
      response.length < 21 → read_raw_status response = .error .shortResp) ∧
    (3 ≤ response.length →
      unpack_le2 (response.drop (response.length - 2)) =
        calculate_crc (response.take (response.length - 2)) →
      21 ≤ response.length → read_raw_status response = .ok response) := by
  by_cases hlen : response.length < 3
  · have h1 : recv_validate response = .error .timeout := by
      simp [recv_validate, hlen]
    refine ⟨by simp [h1, hlen], ?_, ?_, ?_⟩
    · exact ⟨fun h => by rw [h1] at h; simp at h,
        fun h => absurd h.1 (by omega)⟩
    · intro h3 _ _; exact absurd h3 (by omega)
    · intro h3 _ _; exact absurd h3 (by omega)
  · by_cases hcrc : unpack_le2 (response.drop (response.length - 2)) =
        calculate_crc (response.take (response.length - 2))
    · have h1 : recv_validate response = .ok response := by
        simp [recv_validate, hlen, hcrc]
      refine ⟨?_, ?_, ?_, ?_⟩
      · exact ⟨fun h => by rw [h1] at h; simp at h, fun h => absurd h hlen⟩
      · exact ⟨fun h => by rw [h1] at h; simp at h, fun h => absurd hcrc h.2⟩
      · intro _ _ h21
        simp [read_raw_status, h1, h21]
      · intro _ _ h21
        simp [read_raw_status, h1]
        omega
    · have h1 : recv_validate response = .error .crcFail := by
        simp [recv_validate, hlen, hcrc]
      refine ⟨?_, ?_, ?_, ?_⟩
      · exact ⟨fun h => by rw [h1] at h; simp at h, fun h => absurd h hlen⟩
      · exact ⟨fun _ => ⟨by omega, hcrc⟩, fun _ => h1⟩
      · intro _ hc _; exact absurd hc hcrc
      · intro _ hc _; exact absurd hc hcrc

set_option maxRecDepth 8000 in
theorem C9_transport_witness :
    read_raw_status sampleStatusResp = .ok sampleStatusResp :=
  (C9_transport_failures sampleStatusResp).2.2.2 (by decide) (by decide)
    (by decide)

/-- C1: processing the line "VOLT 5.0;VOLT?" does not produce "OK" and a
voltage value: whatever the handlers would reply, both sub-commands are
rejected as unknown, because normalization expands VOLT to the
mixed-case "VOLTage" while the dispatcher compares the name against the
fully upper-cased table keys.  The second conjunct records the actual
normalization result. -/
theorem C1_volt_scenario_rejected (h : ScpiHandlers) :
    process_command h (codes "VOLT 5.0;VOLT?") =
      codes "ERROR: Unknown command" ++ 10 :: codes "ERROR: Unknown command" ∧
    normalize_command (codes "VOLT 5.0") = codes "VOLTage 5.0" :=
  ⟨rfl, rfl⟩

theorem replaceScan_no_occur (pat rep : List Nat) (s : List Nat)
    (h : occursIn pat s = false) : replaceScan pat rep s 0 = s := by
  induction s with
  | nil => rfl
  | cons c t ih =>
    unfold occursIn at h
    rw [Bool.or_eq_false_iff] at h
    unfold replaceScan
    rw [if_neg (by simp [h.1])]
    rw [ih h.2]

theorem pyReplace_no_occur (pat rep s : List Nat)
    (h : occursIn pat s = false) : pyReplace s pat rep = s := by
  unfold pyReplace
  split
  · rfl
  · exact replaceScan_no_occur pat rep s h

theorem foldl_replace_id (tbl : List (List Nat × List Nat)) (u : List Nat)
    (h : ∀ x ∈ tbl, occursIn x.1 u = false) :
    tbl.foldl (fun acc x => pyReplace acc x.1 x.2) u = u := by
  induction tbl with
  | nil => rfl
  | cons y ys ih =>
    simp only [List.foldl_cons]
    rw [pyReplace_no_occur y.1 y.2 u (h y (List.mem_cons_self y ys))]
    exact ih (fun x hx => h x (List.mem_cons_of_mem y hx))

theorem pyUpperChar_idem (c : Nat) :
    pyUpperChar (pyUpperChar c) = pyUpperChar c := by
  unfold pyUpperChar
  split_ifs <;> omega

theorem pyUpperStr_idem (s : List Nat) :
    pyUpperStr (pyUpperStr s) = pyUpperStr s := by
  induction s with
  | nil => rfl
  | cons c t ih =>
    show pyUpperChar (pyUpperChar c) :: pyUpperStr (pyUpperStr t) =
      pyUpperChar c :: pyUpperStr t
    rw [pyUpperChar_idem, ih]

/-- C2 counterexample: normalization is not idempotent; normalizing
"VOLT" once yields "VOLTage", and normalizing that again yields
"VOLTageAGE". -/
theorem C2_not_idempotent_on_VOLT :
    normalize_command (normalize_command (codes "VOLT")) ≠
      normalize_command (codes "VOLT") := by decide

/-- C2 (amended): normalization is idempotent on every line whose
upper-cased form contains no abbreviation key as a substring; on such a
line normalization only upper-cases, and upper-casing is idempotent. -/
theorem C2_normalize_idempotent_no_abbrev (s : List Nat)
    (h : ∀ x ∈ abbreviations, occursIn x.1 (pyUpperStr s) = false) :
    normalize_command (normalize_command s) = normalize_command s := by
  have h1 : normalize_command s = pyUpperStr s := by
    unfold normalize_command
    exact foldl_replace_id _ _ h
  rw [h1]
  unfold normalize_command
  rw [pyUpperStr_idem]
  exact foldl_replace_id _ _ h

theorem C2_idempotent_witness :
    (∀ x ∈ abbreviations, occursIn x.1 (pyUpperStr (codes "*IDN?")) = false) ∧
    normalize_command (normalize_command (codes "*IDN?")) =
      normalize_command (codes "*IDN?") :=
  ⟨by decide, C2_normalize_idempotent_no_abbrev (codes "*IDN?") (by decide)⟩

/-- C3: after a QUIT line the session loop sends the farewell but does
not close the connection: the break leaves only the inner buffered-line
loop, so a command line received afterwards is still processed and
answered.  With the chunks "QUIT\n" then "*IDN?\n" and a processor that
replies "OK", the client is sent the greeting, the farewell, and then a
further command reply. -/
theorem C3_processing_continues_after_quit :
    handle_client (fun _ => codes "OK") [codes "QUIT\n", codes "*IDN?\n"] =
      [greetingMsg, goodbyeMsg, codes "OK\n"] := rfl

/-- C7: whenever the effective target voltage or current exceeds the
profile maximum or is negative, set_output raises ValueError and hands no
write frame to the link. -/
theorem C7_out_of_range_rejected (p : Profile) (le : Bool) (st : Snapshot)
    (link : List Nat → Except PyErr (List Nat))
    (voltage current : Option ℚ) (po oc kl : Option Bool)
    (h : voltage.getD st.set_voltage > p.max_voltage ∨
         current.getD st.set_current > p.max_current ∨
         voltage.getD st.set_voltage < 0 ∨
         current.getD st.set_current < 0) :
    set_output_link p le (.ok st) link voltage current po oc kl =
      (.error .valueError, []) := by
  have hv : validate_targets p
      (fill_targets st voltage current po oc kl) = some .valueError := by
    unfold validate_targets fill_targets
    split_ifs with h1 h2 h3
    · rfl
    · rfl
    · rfl
    · exfalso
      simp only at h1 h2 h3
      rcases h with hh | hh | hh | hh
      · exact h1 hh
      · exact h2 hh
      · exact h3 (Or.inl hh)
      · exact h3 (Or.inr hh)
  simp [set_output_link, hv]

theorem C7_out_of_range_witness :
    ((some (50 : ℚ)).getD sampleSnapshot.set_voltage > sampleProfile.max_voltage ∨
      (none : Option ℚ).getD sampleSnapshot.set_current > sampleProfile.max_current ∨
      (some (50 : ℚ)).getD sampleSnapshot.set_voltage < 0 ∨
      (none : Option ℚ).getD sampleSnapshot.set_current < 0) ∧
    set_output_link sampleProfile true (.ok sampleSnapshot)
        (fun _ => .ok sampleStatusResp) (some 50) none none none none =
      (.error .valueError, []) :=
  ⟨Or.inl (by decide),
    C7_out_of_range_rejected sampleProfile true sampleSnapshot
      (fun _ => .ok sampleStatusResp) (some 50) none none none none
      (Or.inl (by decide))⟩

/-- C10: a failure of the serial exchange during the write phase is
caught and set_output returns False (with the write frame having been
handed to the link); a failure of the initial read_status propagates; a
range-validation failure propagates as ValueError. -/
theorem C10_write_failure_caught (p : Profile) (le : Bool)
    (link : List Nat → Except PyErr (List Nat)) (st : Snapshot)
    (voltage current : Option ℚ) (po oc kl : Option Bool) (e : PyErr) :
    (set_output_link p le (.error e) link voltage current po oc kl =
      (.error e, [])) ∧
    (validate_targets p (fill_targets st voltage current po oc kl) = none →
      ∀ e2, link (write_frame p le
          (control_byte (fill_targets st voltage current po oc kl).tpower
            (fill_targets st voltage current po oc kl).tocp
            (fill_targets st voltage current po oc kl).tlock)
          (raw_of p.voltage_decimal_places
            (fill_targets st voltage current po oc kl).tv)
          (raw_of p.current_decimal_places
            (fill_targets st voltage current po oc kl).tc)) = .error e2 →
        set_output_link p le (.ok st) link voltage current po oc kl =
          (.ok false, [write_frame p le
            (control_byte (fill_targets st voltage current po oc kl).tpower
              (fill_targets st voltage current po oc kl).tocp
              (fill_targets st voltage current po oc kl).tlock)
            (raw_of p.voltage_decimal_places
              (fill_targets st voltage current po oc kl).tv)
            (raw_of p.current_decimal_places
              (fill_targets st voltage current po oc kl).tc)])) ∧
    (∀ e3, validate_targets p (fill_targets st voltage current po oc kl) =
        some e3 →
      set_output_link p le (.ok st) link voltage current po oc kl =
        (.error e3, [])) := by
  refine ⟨rfl, ?_, ?_⟩
  · intro hval e2 hlink
    simp [set_output_link, hval, hlink]
  · intro e3 hval
    simp [set_output_link, hval]

theorem C10_write_failure_witness :
    (validate_targets sampleProfile
      (fill_targets sampleSnapshot (some 5) none none none none) = none) ∧
    set_output_link sampleProfile true (.ok sampleSnapshot)
        (fun _ => .error .timeout) (some 5) none none none none =
      (.ok false, [write_frame sampleProfile true
        (control_byte (fill_targets sampleSnapshot (some 5) none none none none).tpower
          (fill_targets sampleSnapshot (some 5) none none none none).tocp
          (fill_targets sampleSnapshot (some 5) none none none none).tlock)
        (raw_of sampleProfile.voltage_decimal_places
          (fill_targets sampleSnapshot (some 5) none none none none).tv)
        (raw_of sampleProfile.current_decimal_places
          (fill_targets sampleSnapshot (some 5) none none none none).tc)]) :=
  ⟨by decide,
    (C10_write_failure_caught sampleProfile true (fun _ => .error .timeout)
      sampleSnapshot (some 5) none none none none .timeout).2.1
      (by decide) .timeout rfl⟩

theorem pyInt_natCast (n : Nat) : pyInt ((n : ℚ)) = (n : Int) := by
  unfold pyInt
  rw [Rat.num_natCast, Rat.den_natCast]
  cases n with
  | zero => simp
  | succ m =>
    have hs : ((m + 1 : Nat) : Int).sign = 1 := rfl
    have ha : ((m + 1 : Nat) : Int).natAbs = m + 1 := rfl
    rw [hs, ha]
    simp

theorem raw_of_eval (dec : Nat) (x : ℚ) (n : Nat)
    (hx : x * 10 ^ dec = (n : ℚ)) : raw_of dec x = n := by
  unfold raw_of
  rw [hx, pyInt_natCast]
  simp

theorem raw_of_div_pow (dec n : Nat) :
    raw_of dec ((n : ℚ) / 10 ^ dec) = n :=
  raw_of_eval dec _ n (div_mul_cancel₀ _ (by positivity))

/-- C8: the claim fails on the code.  set_output does fill every omitted
argument from the fresh snapshot, but the fill goes through the source's
IEEE-754 double arithmetic: with two current decimal places and device
set-current raw word 29, a call that omits the current (such as
set_voltage(5.0)) reads back 29/100 and writes int((29/100)*100) = 28,
silently changing the unspecified field; likewise raw word 820 is written
back as 819.  Under exact rational arithmetic the word would be
preserved (third conjunct), so the loss is exactly the float rounding. -/
theorem C8_float_refill_resets_word :
    float_refill_raw 29 100 = 28 ∧
    float_refill_raw 820 100 = 819 ∧
    raw_of 2 (((29 : Nat) : ℚ) / 10 ^ 2) = 29 :=
  ⟨by decide, by decide, raw_of_div_pow 2 29⟩
